import Mathlib

/-!
Shallow embedding of the telemetry core of `src/dashboard/app.py`
(TinyML predictive-maintenance dashboard).

Machine floats are modelled as rationals (`ℚ`); the global mutable state of
the Flask app (`current_mode`, `last_state_change`, `boot_start_time`,
`sim_state`) is threaded explicitly through a per-tick step function.
`random.random()` / `random.choice` / `random.uniform` draws are passed in as
explicit parameters. A trained model is a function from the feature vector to
`Except Unit ℤ`, where `Except.error` models a raised exception inside
`model.predict` and `Except.ok` a returned code.
-/

namespace PredMaint

/-- The expert-system knowledge base `REPAIR_GUIDE` of app.py (lines 29-36),
a dict from fault category to guidance string. Keys not present in the dict
are mapped to `""` (never dereferenced by the code). -/
def REPAIR_GUIDE : String → String
  | "BOOT" => "System initializing... Calibrating sensors."
  | "OPTIMAL" => "System operating within normal parameters. Efficiency: 98%."
  | "CRITICAL FAULT" => "CRITICAL ANOMALY DETECTED. IMMEDIATE ACTION REQUIRED."
  | "BEARING_FAIL" => "DIAGNOSIS: Inner Race Bearing Spalling. REPAIR: Replace Drive-End (DE) Bearing. Inspect lubrication for contamination."
  | "UNBALANCE" => "DIAGNOSIS: Rotor Assembly Imbalance. REPAIR: Clean fan blades to remove debris buildup. Check balance weights."
  | "HIGH_VIBE" => "DIAGNOSIS: Loose Mechanical Mounting. REPAIR: Tighten foundation bolts to 45Nm torque. Check isolation pads."
  | _ => ""

/-- A physics target vector as returned by `get_target_state` (RMS, Kurtosis,
Temp, Speed). -/
structure Target where
  rms : ℚ
  kurtosis : ℚ
  temp : ℚ
  speed : ℚ
deriving DecidableEq

/-- Function `get_target_state` of app.py (lines 55-65): physics targets for the
current operating mode, with a catch-all default for unrecognized modes. -/
def get_target_state (mode : String) : Target :=
  if mode = "HEALTHY" then ⟨0.05, 2.2, 48.0, 1800⟩
  else if mode = "BEARING_WEAR" then ⟨0.38, 7.5, 72.0, 1750⟩
  else if mode = "UNBALANCE" then ⟨0.55, 2.8, 58.0, 1780⟩
  else if mode = "BOOT_SEQUENCE" then ⟨0.02, 1.5, 35.0, 500⟩
  else ⟨0.05, 2.0, 45.0, 1800⟩

/-- The mutable state-machine variables of app.py (lines 16-18):
`current_mode`, `last_state_change`, `boot_start_time`. -/
structure ModeState where
  currentMode : String
  lastStateChange : ℚ
  bootStartTime : ℚ
deriving DecidableEq

/-- Process start: `current_mode = "BOOT_SEQUENCE"`, both timestamps taken at
module load, modelled as time 0. -/
def initialModeState : ModeState := ⟨"BOOT_SEQUENCE", 0, 0⟩

/-- The state-machine block of `telemetry` (app.py lines 78-95), executed once
per tick at time `now`. `r1` models the `random.random()` draw and `r2` the
draw behind `random.choice(["BEARING_WEAR", "UNBALANCE"])` (first scenario for
`r2 < 0.5`, second otherwise). The second component counts how many random
draws the tick consumed (0, 1 for `random.random()` alone, or 2 when
`random.choice` also runs). -/
def modeStep (st : ModeState) (now r1 r2 : ℚ) : ModeState × ℕ :=
  if st.currentMode = "BOOT_SEQUENCE" then
    if now - st.bootStartTime > 10 then
      (⟨"HEALTHY", now, st.bootStartTime⟩, 0)
    else (st, 0)
  else if now - st.lastStateChange > 60 then
    if r1 > 0.70 then
      (⟨if r2 < 0.5 then "BEARING_WEAR" else "UNBALANCE", now, st.bootStartTime⟩, 2)
    else
      (⟨"HEALTHY", now, st.bootStartTime⟩, 1)
  else (st, 0)

/-- The persistent physics-simulation state `sim_state` of app.py
(lines 21-26). -/
structure SimState where
  rms : ℚ
  kurtosis : ℚ
  temp : ℚ
  fanSpeed : ℚ
deriving DecidableEq

/-- State `sim_state` at process start: RMS 0.00, Kurtosis 0.0, Temp 25.0
(ambient), FanSpeed 0. -/
def initial_sim_state : SimState := ⟨0.00, 0.0, 25.0, 0⟩

/-- The per-tick noise draws `random.uniform(-a, a)` for the four channels. -/
structure Noise where
  nRMS : ℚ
  nKurtosis : ℚ
  nTemp : ℚ
  nFanSpeed : ℚ
deriving DecidableEq

/-- The ranges of the four `random.uniform` calls of app.py lines 102-105:
RMS ±0.005, Kurtosis ±0.1, Temp ±0.1, FanSpeed ±5. -/
def noiseInRange (n : Noise) : Prop :=
  |n.nRMS| ≤ 0.005 ∧ |n.nKurtosis| ≤ 0.1 ∧ |n.nTemp| ≤ 0.1 ∧ |n.nFanSpeed| ≤ 5

/-- One channel of the drift update (app.py lines 102-105):
`obs += (target - obs) * gain + noise`. -/
def driftChannel (gain obs target noise : ℚ) : ℚ :=
  obs + (target - obs) * gain + noise

/-- The physics-simulation block of `telemetry` (app.py lines 100-105): all
four channels drift toward their targets, gain 0.05 for RMS/Kurtosis/FanSpeed
and 0.02 for Temp, plus the uniform noise draw. No clamping happens here. -/
def driftStep (s : SimState) (t : Target) (n : Noise) : SimState :=
  { rms := driftChannel 0.05 s.rms t.rms n.nRMS
    kurtosis := driftChannel 0.05 s.kurtosis t.kurtosis n.nKurtosis
    temp := driftChannel 0.02 s.temp t.temp n.nTemp
    fanSpeed := driftChannel 0.05 s.fanSpeed t.speed n.nFanSpeed }

/-- Line 108 of app.py, `rms = max(0.00, sim_state["RMS"])`: the clamped local
value derived from the persistent state. -/
def clampedRMS (s : SimState) : ℚ := max 0.00 s.rms

/-- Line 109 of app.py, `kurtosis = max(1.0, sim_state["Kurtosis"])`. -/
def clampedKurtosis (s : SimState) : ℚ := max 1.0 s.kurtosis

/-- Line 114 of app.py, `peak = rms * 1.414`. -/
def peakOf (rms : ℚ) : ℚ := rms * 1.414

/-- Line 115 of app.py, `energy = (rms * 10) + (kurtosis * 0.5)`. -/
def energyOf (rms kurtosis : ℚ) : ℚ := rms * 10 + kurtosis * 0.5

/-- Python `int(x)`: truncation toward zero (app.py line 111). -/
def truncInt (q : ℚ) : ℤ := if q < 0 then ⌈q⌉ else ⌊q⌋

/-- Python `round(x)` to an integer: round-half-to-even. -/
def roundHalfEven (q : ℚ) : ℤ :=
  if q - ⌊q⌋ < 1/2 then ⌊q⌋
  else if q - ⌊q⌋ > 1/2 then ⌊q⌋ + 1
  else if Even ⌊q⌋ then ⌊q⌋ else ⌊q⌋ + 1

/-- Python `round(x, d)` (app.py lines 151-153), idealized over ℚ. -/
def pyRound (d : ℕ) (q : ℚ) : ℚ := (roundHalfEven (q * 10 ^ d) : ℚ) / 10 ^ d

/-- A loaded trained model: `predict` applied to the feature vector
`[rms, kurtosis, peak, energy]`, returning either a class code or an
exception. -/
abbrev PModel := List ℚ → Except Unit ℤ

/-- The three inference outputs of `telemetry`: `pred_label`, `pred_code`,
`bot_recommendation`. -/
structure Inference where
  pred_label : String
  pred_code : ℤ
  bot_recommendation : String
deriving DecidableEq

/-- The AI-inference block of `telemetry` (app.py lines 117-146), including
its defaults (`"UNKNOWN"`, `0`, `"System Analyzing..."`): Booting substitutes
a fixed INITIALIZING result; with a model present, a successful predict of 1
runs the ordered expert-system rules and any other successful predict yields
OPTIMAL; a raised exception leaves the defaults except `pred_label = "ERROR"`;
with no model loaded the defaults are returned unchanged. -/
def runInference (model : Option PModel) (mode : String)
    (rms kurtosis peak energy : ℚ) : Inference :=
  if mode = "BOOT_SEQUENCE" then
    ⟨"INITIALIZING", 0, REPAIR_GUIDE "BOOT"⟩
  else
    match model with
    | some m =>
      match m [rms, kurtosis, peak, energy] with
      | .ok c =>
        if c = 1 then
          ⟨"CRITICAL FAULT", c,
            if kurtosis > 4.5 then REPAIR_GUIDE "BEARING_FAIL"
            else if rms > 0.30 ∧ kurtosis < 3.5 then REPAIR_GUIDE "UNBALANCE"
            else REPAIR_GUIDE "HIGH_VIBE"⟩
        else ⟨"OPTIMAL", c, REPAIR_GUIDE "OPTIMAL"⟩
      | .error _ => ⟨"ERROR", 0, "System Analyzing..."⟩
    | none => ⟨"UNKNOWN", 0, "System Analyzing..."⟩

/-- The full per-tick mutable state of the app: the mode machine plus the
physics simulation. -/
structure TickState where
  modeSt : ModeState
  sim : SimState
deriving DecidableEq

/-- The JSON payload assembled at the end of `telemetry`
(app.py lines 149-159), minus the wall-clock display timestamp. -/
structure TelemetryRecord where
  rms : ℚ
  kurtosis : ℚ
  temp : ℚ
  speed : ℤ
  status : String
  status_code : ℤ
  recommendation : String
  mode_debug : String
deriving DecidableEq

/-- One full execution of the `telemetry` route of app.py (lines 72-159) at
time `now`, given the loaded model (`none` when no model file could be
loaded), the mode-machine draws `r1 r2` and the four uniform noise draws.
Returns the updated persistent state and the response record. -/
def telemetry (model : Option PModel) (st : TickState) (now r1 r2 : ℚ)
    (noise : Noise) : TickState × TelemetryRecord :=
  let modeSt := (modeStep st.modeSt now r1 r2).1
  let targets := get_target_state modeSt.currentMode
  let sim := driftStep st.sim targets noise
  let rms := clampedRMS sim
  let kurtosis := clampedKurtosis sim
  let temp := sim.temp
  let speed := truncInt sim.fanSpeed
  let peak := peakOf rms
  let energy := energyOf rms kurtosis
  let inf := runInference model modeSt.currentMode rms kurtosis peak energy
  (⟨modeSt, sim⟩,
   { rms := pyRound 4 rms
     kurtosis := pyRound 2 kurtosis
     temp := pyRound 1 temp
     speed := speed
     status := inf.pred_label
     status_code := inf.pred_code
     recommendation := inf.bot_recommendation
     mode_debug := modeSt.currentMode })

/-- The feature vector `[rms, kurtosis, peak, energy]` that a tick passes to
`model.predict` (app.py line 128), expressed as a function of the tick
inputs. -/
def tickFeatures (st : TickState) (now r1 r2 : ℚ) (noise : Noise) : List ℚ :=
  let modeSt := (modeStep st.modeSt now r1 r2).1
  let sim := driftStep st.sim (get_target_state modeSt.currentMode) noise
  [clampedRMS sim, clampedKurtosis sim, peakOf (clampedRMS sim),
   energyOf (clampedRMS sim) (clampedKurtosis sim)]

/-- Modelled from the spec: the heuristic classifier variant
(`code = 1 if (rms > 0.20 or kurtosis > 4.0) else 0`) that §4.4 and §7 of the
spec ascribe to the Classifier Adapter. No such fallback exists anywhere in
the source; this definition follows the spec's words and is used only to
compare the spec's claimed behavior against the code's. -/
def heuristicCode (rms kurtosis : ℚ) : ℤ :=
  if rms > 0.20 ∨ kurtosis > 4.0 then 1 else 0

/-- Iterated fold of `modeStep` over a list of `(now, r1, r2)` tick inputs. -/
def runModeTicks (st : ModeState) (ticks : List (ℚ × ℚ × ℚ)) : ModeState :=
  ticks.foldl (fun s t => (modeStep s t.1 t.2.1 t.2.2).1) st

/-- Zero-noise iteration of a single drift channel with a constant target:
`driftIter gain target obs n` is the observed value after `n` steps. -/
def driftIter (gain target obs : ℚ) : ℕ → ℚ
  | 0 => obs
  | n + 1 => driftChannel gain (driftIter gain target obs n) target 0

/-- The all-zero noise draw (inside every channel's range). -/
def zeroNoise : Noise := ⟨0, 0, 0, 0⟩

/-- A trained model whose `predict` always raises. -/
def throwingModel : PModel := fun _ => .error ()

/-- A trained model that always returns the fixed code `c`. -/
def constModel (c : ℤ) : PModel := fun _ => .ok c

/-- A concrete persisted state: HEALTHY mode entered at time 0, simulation
showing strong vibration (RMS 0.5). -/
def highVibState : TickState := ⟨⟨"HEALTHY", 0, 0⟩, ⟨0.5, 2, 48, 1800⟩⟩

/-- A noise draw at the extreme of the RMS range (`random.uniform` may return
its endpoint): RMS noise -0.005, other channels 0. -/
def negNoise : Noise := ⟨-0.005, 0, 0, 0⟩

/-- Invariant of the mode machine while every tick so far happened at a time
≤ 70: it is still Booting (with its boot timestamp at process start 0), or it
is HEALTHY with the dwell timer started strictly after time 10. -/
def ModeInv (st : ModeState) : Prop :=
  st.bootStartTime = 0 ∧
  (st.currentMode = "BOOT_SEQUENCE" ∨
    (st.currentMode = "HEALTHY" ∧ 10 < st.lastStateChange))


/-- C4 (amended): the Target Table maps the four recognized modes to their
documented targets, and every unrecognized mode falls through to the fixed
default `{rms 0.05, kurtosis 2.0, temp 45.0, fanSpeed 1800}` — which is close
to, but not equal to, the Healthy target (kurtosis 2.0 vs 2.2, temp 45.0 vs
48.0), and is not a zero vector. -/
theorem target_table_cases (m : String) (h1 : m ≠ "HEALTHY")
    (h2 : m ≠ "BEARING_WEAR") (h3 : m ≠ "UNBALANCE") (h4 : m ≠ "BOOT_SEQUENCE") :
    get_target_state "BOOT_SEQUENCE" = ⟨0.02, 1.5, 35.0, 500⟩ ∧
    get_target_state "HEALTHY" = ⟨0.05, 2.2, 48.0, 1800⟩ ∧
    get_target_state "BEARING_WEAR" = ⟨0.38, 7.5, 72.0, 1750⟩ ∧
    get_target_state "UNBALANCE" = ⟨0.55, 2.8, 58.0, 1780⟩ ∧
    get_target_state m = ⟨0.05, 2.0, 45.0, 1800⟩ ∧
    get_target_state m ≠ ⟨0.05, 2.2, 48.0, 1800⟩ ∧
    get_target_state m ≠ ⟨0, 0, 0, 0⟩ := by
  unfold get_target_state
  rw [if_neg h1, if_neg h2, if_neg h3, if_neg h4]
  refine ⟨rfl, rfl, rfl, rfl, rfl, ?_, ?_⟩ <;>
    · simp only [ne_eq, Target.mk.injEq]
      norm_num

/-- C4 witness: the unrecognized mode string "MYSTERY" takes the fall-through
branch and does not receive the Healthy target. -/
theorem target_table_cases_witness :
    get_target_state "MYSTERY" = ⟨0.05, 2.0, 45.0, 1800⟩ ∧
    get_target_state "MYSTERY" ≠ ⟨0.05, 2.2, 48.0, 1800⟩ := by
  have h := target_table_cases "MYSTERY" (by decide) (by decide) (by decide) (by decide)
  exact ⟨h.2.2.2.2.1, h.2.2.2.2.2.1⟩

/-- C4 counterexample: the claim says an unrecognized mode fails closed to
exactly the Healthy target; in the code the fall-through default has kurtosis
2.0 and temp 45.0 while the Healthy target has kurtosis 2.2 and temp 48.0, so
`get_target_state "MYSTERY" ≠ get_target_state "HEALTHY"`. -/
theorem target_table_fallback_ne_healthy :
    (get_target_state "MYSTERY").kurtosis = 2.0 ∧
    (get_target_state "HEALTHY").kurtosis = 2.2 ∧
    get_target_state "MYSTERY" ≠ get_target_state "HEALTHY" := by
  refine ⟨rfl, rfl, fun h => ?_⟩
  have h2 : (2.0 : ℚ) = 2.2 := by
    calc (2.0 : ℚ) = (get_target_state "MYSTERY").kurtosis := rfl
    _ = (get_target_state "HEALTHY").kurtosis := by rw [h]
    _ = 2.2 := rfl
  norm_num at h2

/-- C1 (amended): when no model could be loaded at startup, there is no
heuristic variant: every tick whose (post-transition) mode is not Booting
returns `status_code = 0`, `status = "UNKNOWN"` and the untouched default
recommendation `"System Analyzing..."`, whatever the observed values are, for
the whole process lifetime. -/
theorem no_model_defaults (st : TickState) (now r1 r2 : ℚ) (noise : Noise)
    (h : (modeStep st.modeSt now r1 r2).1.currentMode ≠ "BOOT_SEQUENCE") :
    (telemetry none st now r1 r2 noise).2.status_code = 0 ∧
    (telemetry none st now r1 r2 noise).2.status = "UNKNOWN" ∧
    (telemetry none st now r1 r2 noise).2.recommendation = "System Analyzing..." := by
  simp only [telemetry, runInference, if_neg h]
  exact ⟨trivial, trivial, trivial⟩

/-- C1 witness: a concrete non-Booting tick without a model returns the
defaults. -/
theorem no_model_defaults_witness :
    (telemetry none highVibState 5 0 0 zeroNoise).2.status_code = 0 ∧
    (telemetry none highVibState 5 0 0 zeroNoise).2.status = "UNKNOWN" ∧
    (telemetry none highVibState 5 0 0 zeroNoise).2.recommendation = "System Analyzing..." := by
  refine no_model_defaults highVibState 5 0 0 zeroNoise ?_
  norm_num [modeStep, highVibState]
  decide

/-- C1 counterexample: the claim says a no-model tick classifies by the
heuristic (code 1 when rms > 0.20). On a HEALTHY-mode tick whose clamped rms
is 0.4775 > 0.20 the heuristic code is 1, yet the code returns
`status_code = 0` (and status "UNKNOWN"): the heuristic variant does not
exist in the program. -/
theorem no_model_heuristic_cx :
    heuristicCode (clampedRMS (telemetry none highVibState 5 0 0 zeroNoise).1.sim)
        (clampedKurtosis (telemetry none highVibState 5 0 0 zeroNoise).1.sim) = 1 ∧
    (telemetry none highVibState 5 0 0 zeroNoise).2.status_code = 0 ∧
    (telemetry none highVibState 5 0 0 zeroNoise).2.mode_debug ≠ "BOOT_SEQUENCE" := by
  refine ⟨?_, ?_, ?_⟩ <;>
    · norm_num [telemetry, modeStep, driftStep, driftChannel, get_target_state,
        runInference, clampedRMS, clampedKurtosis, heuristicCode, highVibState, zeroNoise]
      try simp
      try norm_num

/-- Helper: with a model present, outside Booting, a raised prediction
exception yields label "ERROR", code 0 and the untouched default
recommendation. -/
theorem runInference_error (m : PModel) (mode : String) (r k p e : ℚ)
    (h : mode ≠ "BOOT_SEQUENCE") (he : m [r, k, p, e] = .error ()) :
    runInference (some m) mode r k p e = ⟨"ERROR", 0, "System Analyzing..."⟩ := by
  simp only [runInference, if_neg h, he]

/-- Helper: with a model present, outside Booting, a successful prediction is
dispatched on `pred_code == 1`. -/
theorem runInference_ok (m : PModel) (mode : String) (r k p e : ℚ) (c : ℤ)
    (h : mode ≠ "BOOT_SEQUENCE") (hok : m [r, k, p, e] = .ok c) :
    runInference (some m) mode r k p e =
      if c = 1 then
        ⟨"CRITICAL FAULT", c,
          if k > 4.5 then REPAIR_GUIDE "BEARING_FAIL"
          else if r > 0.30 ∧ k < 3.5 then REPAIR_GUIDE "UNBALANCE"
          else REPAIR_GUIDE "HIGH_VIBE"⟩
      else ⟨"OPTIMAL", c, REPAIR_GUIDE "OPTIMAL"⟩ := by
  simp only [runInference, if_neg h, hok]

/-- C2 (amended): on a non-Booting tick on which the loaded model's predict
raises, the tick does not fall back to any heuristic: it returns label
"ERROR", code 0 and the default recommendation. The error changes nothing
that later ticks depend on: the persisted state is the same as under any
other model, and a subsequent tick still invokes the same trained model
(a later successful predict of 1 yields the normal CRITICAL FAULT path). -/
theorem prediction_failure_tick (m : PModel) (st : TickState)
    (now r1 r2 now' r1' r2' : ℚ) (noise noise' : Noise)
    (h : (modeStep st.modeSt now r1 r2).1.currentMode ≠ "BOOT_SEQUENCE")
    (herr : m (tickFeatures st now r1 r2 noise) = .error ()) :
    (telemetry (some m) st now r1 r2 noise).2.status = "ERROR" ∧
    (telemetry (some m) st now r1 r2 noise).2.status_code = 0 ∧
    (telemetry (some m) st now r1 r2 noise).2.recommendation = "System Analyzing..." ∧
    (∀ mdl2 : Option PModel,
      (telemetry (some m) st now r1 r2 noise).1 = (telemetry mdl2 st now r1 r2 noise).1) ∧
    ((modeStep (telemetry (some m) st now r1 r2 noise).1.modeSt now' r1' r2').1.currentMode
        ≠ "BOOT_SEQUENCE" →
      m (tickFeatures (telemetry (some m) st now r1 r2 noise).1 now' r1' r2' noise') = .ok 1 →
      (telemetry (some m) ((telemetry (some m) st now r1 r2 noise).1)
          now' r1' r2' noise').2.status = "CRITICAL FAULT") := by
  have hrun := runInference_error m _ _ _ _ _ h herr
  refine ⟨?_, ?_, ?_, fun mdl2 => rfl, fun h' hok => ?_⟩
  · show (runInference (some m) _ _ _ _ _).pred_label = "ERROR"
    rw [hrun]
  · show (runInference (some m) _ _ _ _ _).pred_code = 0
    rw [hrun]
  · show (runInference (some m) _ _ _ _ _).bot_recommendation = "System Analyzing..."
    rw [hrun]
  · have hrun2 := runInference_ok m _ _ _ _ _ 1 h' hok
    show (runInference (some m) _ _ _ _ _).pred_label = "CRITICAL FAULT"
    rw [hrun2]
    simp

/-- C2 witness: a concrete HEALTHY-mode tick with an always-throwing model
reports ERROR with code 0; the subsequent conjuncts are discharged with a
later tick at time 20. -/
theorem prediction_failure_tick_witness :
    (telemetry (some throwingModel) highVibState 5 0 0 zeroNoise).2.status = "ERROR" ∧
    (telemetry (some throwingModel) highVibState 5 0 0 zeroNoise).2.status_code = 0 ∧
    (telemetry (some throwingModel) highVibState 5 0 0 zeroNoise).2.recommendation
      = "System Analyzing..." := by
  have h := prediction_failure_tick throwingModel highVibState 5 0 0 20 0 0 zeroNoise zeroNoise
    (by norm_num [modeStep, highVibState]; decide) rfl
  exact ⟨h.1, h.2.1, h.2.2.1⟩

/-- C2 counterexample: the claim says a tick whose predict raises returns
exactly the heuristic result (here code 1, since the clamped rms 0.4775
exceeds 0.20). The code instead returns code 0 with label "ERROR": the
single-tick heuristic fallback does not exist. -/
theorem prediction_failure_cx :
    heuristicCode
        (clampedRMS (telemetry (some throwingModel) highVibState 5 0 0 zeroNoise).1.sim)
        (clampedKurtosis (telemetry (some throwingModel) highVibState 5 0 0 zeroNoise).1.sim) = 1 ∧
    (telemetry (some throwingModel) highVibState 5 0 0 zeroNoise).2.status_code = 0 ∧
    (telemetry (some throwingModel) highVibState 5 0 0 zeroNoise).2.status = "ERROR" := by
  refine ⟨?_, ?_, ?_⟩ <;>
    · norm_num [telemetry, modeStep, driftStep, driftChannel, get_target_state,
        runInference, clampedRMS, clampedKurtosis, heuristicCode, throwingModel,
        highVibState, zeroNoise]
      try simp
      try norm_num

/-- C3 (confirmed): the diagnosis case analysis. A Booting tick always gets
INITIALIZING with the BOOT guidance; a produced classification of code 0
gets OPTIMAL with the OPTIMAL guidance; a classification of code 1 gets label
CRITICAL FAULT and the first-match-wins rules: kurtosis > 4.5 gives
BEARING_FAIL, else rms > 0.30 and kurtosis < 3.5 gives UNBALANCE, else
HIGH_VIBE; and concretely code 1 with rms 0.35, kurtosis 5.0 yields
BEARING_FAIL, not UNBALANCE. -/
theorem diagnosis_case_analysis (mdl : Option PModel) (m : PModel)
    (mode : String) (r k p e : ℚ) (hmode : mode ≠ "BOOT_SEQUENCE") :
    runInference mdl "BOOT_SEQUENCE" r k p e = ⟨"INITIALIZING", 0, REPAIR_GUIDE "BOOT"⟩ ∧
    (m [r, k, p, e] = .ok 0 →
      runInference (some m) mode r k p e = ⟨"OPTIMAL", 0, REPAIR_GUIDE "OPTIMAL"⟩) ∧
    (m [r, k, p, e] = .ok 1 →
      (runInference (some m) mode r k p e).pred_label = "CRITICAL FAULT" ∧
      (4.5 < k →
        (runInference (some m) mode r k p e).bot_recommendation = REPAIR_GUIDE "BEARING_FAIL") ∧
      (¬ 4.5 < k → 0.30 < r ∧ k < 3.5 →
        (runInference (some m) mode r k p e).bot_recommendation = REPAIR_GUIDE "UNBALANCE") ∧
      (¬ 4.5 < k → ¬ (0.30 < r ∧ k < 3.5) →
        (runInference (some m) mode r k p e).bot_recommendation = REPAIR_GUIDE "HIGH_VIBE")) ∧
    (runInference (some (constModel 1)) "HEALTHY" 0.35 5.0 (peakOf 0.35)
        (energyOf 0.35 5.0)).bot_recommendation = REPAIR_GUIDE "BEARING_FAIL" ∧
    REPAIR_GUIDE "BEARING_FAIL" ≠ REPAIR_GUIDE "UNBALANCE" := by
  refine ⟨rfl, fun h0 => ?_, fun h1 => ?_, ?_, by decide⟩
  · rw [runInference_ok m mode r k p e 0 hmode h0]
    norm_num
  · rw [runInference_ok m mode r k p e 1 hmode h1]
    refine ⟨by simp, fun hk => ?_, fun hk hru => ?_, fun hk hru => ?_⟩
    · simp only [if_pos rfl, if_pos hk, if_true]
    · simp only [if_pos rfl, if_neg hk, if_pos hru, if_true]
    · simp only [if_pos rfl, if_neg hk, if_neg hru, if_true]
  · have h := runInference_ok (constModel 1) "HEALTHY" 0.35 5.0 (peakOf 0.35)
      (energyOf 0.35 5.0) 1 (by decide) rfl
    rw [h]
    norm_num

/-- C3 witness: the Booting and code-0 branches at concrete healthy features,
obtained from the case-analysis theorem. -/
theorem diagnosis_case_analysis_witness :
    runInference none "BOOT_SEQUENCE" 0.05 2.2 (peakOf 0.05) (energyOf 0.05 2.2)
      = ⟨"INITIALIZING", 0, REPAIR_GUIDE "BOOT"⟩ ∧
    runInference (some (constModel 0)) "HEALTHY" 0.05 2.2 (peakOf 0.05) (energyOf 0.05 2.2)
      = ⟨"OPTIMAL", 0, REPAIR_GUIDE "OPTIMAL"⟩ := by
  have h := diagnosis_case_analysis none (constModel 0) "HEALTHY" 0.05 2.2
    (peakOf 0.05) (energyOf 0.05 2.2) (by decide)
  exact ⟨h.1, h.2.1 rfl⟩

/-- C5 (amended): the clamping invariant holds for the per-tick derived
values — on every tick, for any model and any noise draws, the clamped rms is
≥ 0 and the clamped kurtosis is ≥ 1 — but the persisted `sim_state` (the
state the next drift step integrates from) is exactly the unclamped drift
output. -/
theorem clamped_values_invariant (model : Option PModel) (st : TickState)
    (now r1 r2 : ℚ) (noise : Noise) :
    0.00 ≤ clampedRMS (telemetry model st now r1 r2 noise).1.sim ∧
    1.0 ≤ clampedKurtosis (telemetry model st now r1 r2 noise).1.sim ∧
    (telemetry model st now r1 r2 noise).1.sim =
      driftStep st.sim
        (get_target_state (modeStep st.modeSt now r1 r2).1.currentMode) noise :=
  ⟨le_max_left _ _, le_max_left _ _, rfl⟩

/-- C5 counterexample: the claim says the ObservedState that persists to the
next tick satisfies rms ≥ 0 and kurtosis ≥ 1 after clamping. With all-zero
noise (inside every range) the very first tick persists kurtosis 0.075 < 1,
and with RMS noise at the range endpoint -0.005 it persists rms -0.004 < 0:
the clamp is applied only to the per-tick local values, never to the
persisted state. -/
theorem persisted_state_unclamped_cx :
    noiseInRange zeroNoise ∧
    (telemetry none ⟨initialModeState, initial_sim_state⟩ 1 0 0 zeroNoise).1.sim.kurtosis
      = 3/40 ∧
    ¬ (1 ≤ (telemetry none ⟨initialModeState, initial_sim_state⟩ 1 0 0 zeroNoise).1.sim.kurtosis) ∧
    noiseInRange negNoise ∧
    (telemetry none ⟨initialModeState, initial_sim_state⟩ 1 0 0 negNoise).1.sim.rms < 0 := by
  refine ⟨?_, ?_, ?_, ?_, ?_⟩
  · norm_num [noiseInRange, zeroNoise]
  · norm_num [telemetry, modeStep, driftStep, driftChannel, get_target_state,
      initialModeState, initial_sim_state, zeroNoise]
    try simp
    try norm_num
  · norm_num [telemetry, modeStep, driftStep, driftChannel, get_target_state,
      initialModeState, initial_sim_state, zeroNoise]
    try simp
    try norm_num
  · norm_num [noiseInRange, negNoise, abs_le]
  · norm_num [telemetry, modeStep, driftStep, driftChannel, get_target_state,
      initialModeState, initial_sim_state, negNoise]
    try simp
    try norm_num

/-- C6 (confirmed): for noise draws within the documented per-channel ranges,
every tick updates the persisted simulation state by exactly
`observed + (target - observed) * gain + noise` per channel, with gain 0.05
for rms, kurtosis and fanSpeed and 0.02 for temp, toward the target of the
tick's (post-transition) mode; temp and fanSpeed are not clamped here. -/
theorem drift_update_gains (model : Option PModel) (st : TickState)
    (now r1 r2 : ℚ) (noise : Noise) (hn : noiseInRange noise) :
    (telemetry model st now r1 r2 noise).1.sim =
      { rms := st.sim.rms +
          ((get_target_state (modeStep st.modeSt now r1 r2).1.currentMode).rms
            - st.sim.rms) * 0.05 + noise.nRMS
        kurtosis := st.sim.kurtosis +
          ((get_target_state (modeStep st.modeSt now r1 r2).1.currentMode).kurtosis
            - st.sim.kurtosis) * 0.05 + noise.nKurtosis
        temp := st.sim.temp +
          ((get_target_state (modeStep st.modeSt now r1 r2).1.currentMode).temp
            - st.sim.temp) * 0.02 + noise.nTemp
        fanSpeed := st.sim.fanSpeed +
          ((get_target_state (modeStep st.modeSt now r1 r2).1.currentMode).speed
            - st.sim.fanSpeed) * 0.05 + noise.nFanSpeed } := rfl

/-- C6 witness: the drift formula at a concrete tick with all-zero noise. -/
theorem drift_update_gains_witness :
    (telemetry none highVibState 5 0 0 zeroNoise).1.sim =
      { rms := highVibState.sim.rms +
          ((get_target_state (modeStep highVibState.modeSt 5 0 0).1.currentMode).rms
            - highVibState.sim.rms) * 0.05 + zeroNoise.nRMS
        kurtosis := highVibState.sim.kurtosis +
          ((get_target_state (modeStep highVibState.modeSt 5 0 0).1.currentMode).kurtosis
            - highVibState.sim.kurtosis) * 0.05 + zeroNoise.nKurtosis
        temp := highVibState.sim.temp +
          ((get_target_state (modeStep highVibState.modeSt 5 0 0).1.currentMode).temp
            - highVibState.sim.temp) * 0.02 + zeroNoise.nTemp
        fanSpeed := highVibState.sim.fanSpeed +
          ((get_target_state (modeStep highVibState.modeSt 5 0 0).1.currentMode).speed
            - highVibState.sim.fanSpeed) * 0.05 + zeroNoise.nFanSpeed } :=
  drift_update_gains none highVibState 5 0 0 zeroNoise
    (by norm_num [noiseInRange, zeroNoise])

/-- C8 (amended): every tick derives its features deterministically from the
tick's clamped observed values: the feature vector handed to the classifier
is `[rms, kurtosis, rms * 1.414, rms * 10 + kurtosis * 0.5]` — i.e. peak uses
the constant 1.414, not √2 — and the tick's reported status is the inference
on exactly these features. -/
theorem features_from_clamped (model : Option PModel) (st : TickState)
    (now r1 r2 : ℚ) (noise : Noise) :
    tickFeatures st now r1 r2 noise =
      [clampedRMS (telemetry model st now r1 r2 noise).1.sim,
       clampedKurtosis (telemetry model st now r1 r2 noise).1.sim,
       clampedRMS (telemetry model st now r1 r2 noise).1.sim * 1.414,
       clampedRMS (telemetry model st now r1 r2 noise).1.sim * 10 +
         clampedKurtosis (telemetry model st now r1 r2 noise).1.sim * 0.5] ∧
    (telemetry model st now r1 r2 noise).2.status =
      (runInference model (modeStep st.modeSt now r1 r2).1.currentMode
        (clampedRMS (telemetry model st now r1 r2 noise).1.sim)
        (clampedKurtosis (telemetry model st now r1 r2 noise).1.sim)
        (peakOf (clampedRMS (telemetry model st now r1 r2 noise).1.sim))
        (energyOf (clampedRMS (telemetry model st now r1 r2 noise).1.sim)
          (clampedKurtosis (telemetry model st now r1 r2 noise).1.sim))).pred_label :=
  ⟨rfl, rfl⟩

/-- C8 counterexample: the claim says peak = rms·√2. The code computes
`peak = rms * 1.414`, and at rms = 1 the two differ: 1.414 is rational with
1.414² = 1.999396 ≠ 2, while √2·1 squares to 2. -/
theorem peak_not_sqrt_two_cx : ((peakOf 1 : ℚ) : ℝ) ≠ Real.sqrt 2 * 1 := by
  intro h
  have h2 : ((1.414 : ℚ) : ℝ) = Real.sqrt 2 := by
    simpa [peakOf] using h
  have h3 : ((1.414 : ℚ) : ℝ) ^ 2 = 2 := by
    rw [h2]
    exact Real.sq_sqrt (by norm_num)
  norm_num at h3

/-- Helper: with zero noise and a fixed target, `n` drift steps shrink the
signed distance to the target by the factor `(1 - gain)^n`. -/
theorem driftIter_dist (gain target obs : ℚ) (n : ℕ) :
    target - driftIter gain target obs n = (1 - gain) ^ n * (target - obs) := by
  induction n with
  | zero => simp [driftIter]
  | succ n ih =>
    have hstep : target - driftIter gain target obs (n + 1)
        = (1 - gain) * (target - driftIter gain target obs n) := by
      simp only [driftIter, driftChannel]
      ring
    rw [hstep, ih, pow_succ]
    ring

/-- C7 (confirmed): with the target held constant and noise zero, each drift
step strictly decreases the distance to the target whenever the observed
value differs from it, and at the code's gain 0.05 the distance after 90
steps is at most 1% of the initial distance. -/
theorem drift_convergence (gain target obs : ℚ) (n : ℕ)
    (h0 : 0 < gain) (h1 : gain < 1) :
    (driftIter gain target obs n ≠ target →
      |driftIter gain target obs (n + 1) - target|
        < |driftIter gain target obs n - target|) ∧
    (gain = 0.05 →
      |driftIter gain target obs 90 - target| ≤ 1/100 * |obs - target|) := by
  constructor
  · intro hne
    have key : driftIter gain target obs (n + 1) - target
        = (1 - gain) * (driftIter gain target obs n - target) := by
      simp only [driftIter, driftChannel]
      ring
    rw [key, abs_mul, abs_of_pos (by linarith : (0:ℚ) < 1 - gain)]
    have hpos : 0 < |driftIter gain target obs n - target| :=
      abs_pos.mpr (sub_ne_zero.mpr hne)
    nlinarith
  · intro hg
    subst hg
    have hd := driftIter_dist 0.05 target obs 90
    have habs : |driftIter 0.05 target obs 90 - target|
        = ((1:ℚ) - 0.05) ^ 90 * |obs - target| := by
      rw [abs_sub_comm, hd, abs_mul, abs_pow,
        abs_of_pos (by norm_num : (0:ℚ) < 1 - 0.05), abs_sub_comm]
    rw [habs]
    have h95 : ((1:ℚ) - 0.05) ^ 90 ≤ 1/100 := by norm_num
    exact mul_le_mul_of_nonneg_right h95 (abs_nonneg _)

/-- C7 witness: gain 0.05, target 0, initial observation 1. -/
theorem drift_convergence_witness :
    (driftIter 0.05 0 1 0 ≠ 0 →
      |driftIter 0.05 0 1 (0 + 1) - 0| < |driftIter 0.05 0 1 0 - 0|) ∧
    ((0.05 : ℚ) = 0.05 →
      |driftIter 0.05 0 1 90 - 0| ≤ 1/100 * |1 - 0|) :=
  drift_convergence 0.05 0 1 0 (by norm_num) (by norm_num)

/-- Helper: a non-Booting tick whose dwell interval has not elapsed leaves
the mode state untouched and draws no randomness. -/
theorem modeStep_no_reeval (s : ModeState) (now r1 r2 : ℚ)
    (h1 : s.currentMode ≠ "BOOT_SEQUENCE") (h2 : ¬ (now - s.lastStateChange > 60)) :
    modeStep s now r1 r2 = (s, 0) := by
  unfold modeStep
  rw [if_neg h1, if_neg h2]

/-- Helper: `modeStep` preserves `ModeInv` for any tick at a time ≤ 70. -/
theorem modeStep_preserves_inv (st : ModeState) (now r1 r2 : ℚ)
    (h : ModeInv st) (hle : now ≤ 70) : ModeInv (modeStep st now r1 r2).1 := by
  obtain ⟨hboot, hcase⟩ := h
  rcases hcase with hb | ⟨hh, hlc⟩
  · unfold modeStep
    rw [if_pos hb]
    by_cases hnow : now - st.bootStartTime > 10
    · rw [if_pos hnow]
      refine ⟨hboot, Or.inr ⟨rfl, ?_⟩⟩
      rw [hboot] at hnow
      linarith
    · rw [if_neg hnow]
      exact ⟨hboot, Or.inl hb⟩
  · have hne : st.currentMode ≠ "BOOT_SEQUENCE" := by
      rw [hh]; decide
    have hdwell : ¬ (now - st.lastStateChange > 60) := by
      push_neg
      linarith
    rw [modeStep_no_reeval st now r1 r2 hne hdwell]
    exact ⟨hboot, Or.inr ⟨hh, hlc⟩⟩

/-- Helper: `ModeInv` is preserved along any tick sequence whose times all
stay ≤ 70. -/
theorem runModeTicks_inv (ticks : List (ℚ × ℚ × ℚ)) (st : ModeState)
    (h : ModeInv st) (hall : ∀ x ∈ ticks, x.1 ≤ 70) :
    ModeInv (runModeTicks st ticks) := by
  induction ticks generalizing st with
  | nil => exact h
  | cons t ts ih =>
    have h1 := modeStep_preserves_inv st t.1 t.2.1 t.2.2 h (hall t (by simp))
    exact ih (modeStep st t.1 t.2.1 t.2.2).1 h1 (fun x hx => hall x (by simp [hx]))

/-- C9 (confirmed): starting at time 0 in Booting, for any tick sequence
whose times stay ≤ 70 and any random draws, a tick at a time in the open
interval (10, 70) always ends with mode HEALTHY: Booting exits to Healthy
once more than 10 time units elapsed, the 60-unit dwell timer starts at that
transition (at a time > 10), so no fault mode can be selected before
time 70. -/
theorem mode_healthy_window (ticks : List (ℚ × ℚ × ℚ)) (t r1 r2 : ℚ)
    (hall : ∀ x ∈ ticks, x.1 ≤ 70) (h10 : 10 < t) (h70 : t < 70) :
    (runModeTicks initialModeState (ticks ++ [(t, r1, r2)])).currentMode
      = "HEALTHY" := by
  have hinv : ModeInv (runModeTicks initialModeState ticks) :=
    runModeTicks_inv ticks initialModeState ⟨rfl, Or.inl rfl⟩ hall
  have happ : runModeTicks initialModeState (ticks ++ [(t, r1, r2)])
      = (modeStep (runModeTicks initialModeState ticks) t r1 r2).1 := by
    simp [runModeTicks, List.foldl_append]
  rw [happ]
  obtain ⟨hboot, hcase⟩ := hinv
  rcases hcase with hb | ⟨hh, hlc⟩
  · unfold modeStep
    rw [if_pos hb, if_pos (show t - (runModeTicks initialModeState ticks).bootStartTime > 10 by
      rw [hboot]; linarith)]
  · have hne : (runModeTicks initialModeState ticks).currentMode ≠ "BOOT_SEQUENCE" := by
      rw [hh]; decide
    have hdwell : ¬ (t - (runModeTicks initialModeState ticks).lastStateChange > 60) := by
      push_neg
      linarith
    rw [modeStep_no_reeval _ t r1 r2 hne hdwell]
    exact hh

/-- C9 witness: the very first tick, requested at time 12, exits Booting into
HEALTHY. -/
theorem mode_healthy_window_witness :
    (runModeTicks initialModeState ([] ++ [(12, 0, 0)])).currentMode = "HEALTHY" :=
  mode_healthy_window [] 12 0 0 (by simp) (by norm_num) (by norm_num)

/-- C10 (confirmed): a tick re-evaluates the mode at most once however much
time elapsed: the transition timestamp is either untouched or set to the
current time `now` (never advanced by one or more dwell intervals), the tick
consumes at most two random draws (one `random.random()` plus at most one
`random.choice`), and after a dwell rollover — even one that is several
intervals overdue — a following tick within the next 60 units performs no
re-evaluation and no draw at all. -/
theorem single_reevaluation (st : ModeState) (now r1 r2 now' r1' r2' : ℚ) :
    ((modeStep st now r1 r2).1.lastStateChange = st.lastStateChange ∨
      (modeStep st now r1 r2).1.lastStateChange = now) ∧
    (modeStep st now r1 r2).2 ≤ 2 ∧
    (st.currentMode ≠ "BOOT_SEQUENCE" → 60 < now - st.lastStateChange →
      (modeStep st now r1 r2).1.lastStateChange = now ∧
      (now' - now ≤ 60 →
        modeStep (modeStep st now r1 r2).1 now' r1' r2' = ((modeStep st now r1 r2).1, 0))) := by
  refine ⟨?_, ?_, fun hne hdw => ?_⟩
  · unfold modeStep
    split_ifs <;> simp
  · unfold modeStep
    split_ifs <;> simp
  · have hres : (modeStep st now r1 r2).1.lastStateChange = now ∧
        (modeStep st now r1 r2).1.currentMode ≠ "BOOT_SEQUENCE" := by
      unfold modeStep
      rw [if_neg hne, if_pos hdw]
      by_cases hr : r1 > 0.70
      · rw [if_pos hr]
        refine ⟨rfl, ?_⟩
        show (if r2 < 0.5 then "BEARING_WEAR" else "UNBALANCE") ≠ "BOOT_SEQUENCE"
        split_ifs <;> decide
      · rw [if_neg hr]
        exact ⟨rfl, show ("HEALTHY" : String) ≠ "BOOT_SEQUENCE" by decide⟩
    refine ⟨hres.1, fun hnext => ?_⟩
    have hnd : ¬ (now' - (modeStep st now r1 r2).1.lastStateChange > 60) := by
      rw [hres.1]
      push_neg
      linarith
    exact modeStep_no_reeval _ now' r1' r2' hres.2 hnd

end PredMaint
